import Mathlib

/-!
Verification of the oak-flink control plane core: the credential broker
(agent_management.go), the agent registry and streaming control service
(oak-server/internal/grpc). Go maps are modelled as association lists keyed
by String; Go map/pointer reference semantics relevant to label maps are
modelled with an explicit heap of label maps addressed by Nat.
-/

namespace Oak

/-- find models Go map read m[k]: first binding for the key, none if absent. -/
def Assoc.find {α : Type} : List (String × α) → String → Option α
  | [], _ => none
  | (k, v) :: t, key => if k = key then some v else Assoc.find t key

/-- set models Go map write m[k] = v: replaces the binding if present, else appends. -/
def Assoc.set {α : Type} : List (String × α) → String → α → List (String × α)
  | [], key, v => [(key, v)]
  | (k, w) :: t, key, v =>
      if k = key then (key, v) :: t else (k, w) :: Assoc.set t key v

/-- del models Go delete(m, k): removes the binding for the key. -/
def Assoc.del {α : Type} : List (String × α) → String → List (String × α)
  | [], _ => []
  | (k, v) :: t, key => if k = key then t else (k, v) :: Assoc.del t key

theorem Assoc.find_set_self {α : Type} (l : List (String × α)) (k : String) (v : α) :
    Assoc.find (Assoc.set l k v) k = some v := by
  induction l with
  | nil => simp [Assoc.find, Assoc.set]
  | cons h t ih =>
      obtain ⟨k0, v0⟩ := h
      by_cases hk : k0 = k
      · simp [Assoc.find, Assoc.set, hk]
      · simp [Assoc.find, Assoc.set, hk, ih]

theorem Assoc.find_set_ne {α : Type} (l : List (String × α)) (k k2 : String) (v : α)
    (h : k2 ≠ k) : Assoc.find (Assoc.set l k v) k2 = Assoc.find l k2 := by
  induction l with
  | nil => simp [Assoc.find, Assoc.set, Ne.symm h]
  | cons hd t ih =>
      obtain ⟨k0, v0⟩ := hd
      by_cases hk : k0 = k
      · subst hk
        simp [Assoc.find, Assoc.set, Ne.symm h]
      · by_cases hk2 : k0 = k2
        · simp [Assoc.find, Assoc.set, hk, hk2, h]
        · simp [Assoc.find, Assoc.set, hk, hk2, ih]

theorem Assoc.find_del_ne {α : Type} (l : List (String × α)) (k k2 : String)
    (h : k2 ≠ k) : Assoc.find (Assoc.del l k) k2 = Assoc.find l k2 := by
  induction l with
  | nil => simp [Assoc.find, Assoc.del]
  | cons hd t ih =>
      obtain ⟨k0, v0⟩ := hd
      by_cases hk : k0 = k
      · subst hk
        simp [Assoc.find, Assoc.del, Ne.symm h]
      · by_cases hk2 : k0 = k2
        · simp [Assoc.find, Assoc.del, hk, hk2, h]
        · simp [Assoc.find, Assoc.del, hk, hk2, ih]

theorem Assoc.find_eq_none_of_not_mem {α : Type} (l : List (String × α)) (k : String)
    (h : k ∉ l.map Prod.fst) : Assoc.find l k = none := by
  induction l with
  | nil => simp [Assoc.find]
  | cons hd t ih =>
      obtain ⟨k0, v0⟩ := hd
      simp only [List.map_cons, List.mem_cons] at h
      push_neg at h
      simp [Assoc.find, Ne.symm h.1, ih h.2]

theorem Assoc.find_del_self {α : Type} (l : List (String × α)) (k : String)
    (h : (l.map Prod.fst).Nodup) : Assoc.find (Assoc.del l k) k = none := by
  induction l with
  | nil => simp [Assoc.find, Assoc.del]
  | cons hd t ih =>
      obtain ⟨k0, v0⟩ := hd
      simp only [List.map_cons, List.nodup_cons] at h
      by_cases hk : k0 = k
      · subst hk
        simp only [Assoc.del, if_pos rfl]
        exact Assoc.find_eq_none_of_not_mem t k0 h.1
      · simp only [Assoc.del, if_neg hk, Assoc.find, if_neg hk]
        exact ih h.2

/-- Lookup after a value-only map over the entries. -/
theorem Assoc.find_mapVal {α β : Type} (l : List (String × α)) (f : α → β) (k : String) :
    Assoc.find (l.map (fun e => (e.1, f e.2))) k = (Assoc.find l k).map f := by
  induction l with
  | nil => simp [Assoc.find]
  | cons hd t ih =>
      obtain ⟨k0, v0⟩ := hd
      by_cases hk : k0 = k
      · simp [Assoc.find, hk]
      · simp [Assoc.find, hk, ih]

/-! ## Credential broker (oak-server/internal/grpc/agent_management.go) -/

/-- StatusResponse_Status from the proto: trust-lifecycle status of a cluster record. -/
inductive Status
  | UNKNOWN
  | PENDING
  | APPROVED
  | REJECTED
  | REVOKED
deriving DecidableEq, Repr

/-- AgentState: the per-cluster record stored by AgentManagementService. -/
structure AgentState where
  clusterID : String
  clusterName : String
  agentID : String
  agentSecret : String
  status : Status
  clientCertPEM : List Nat
  clientKeyPEM : List Nat
  agentVersion : String
  kubernetesVersion : String
deriving DecidableEq, Repr

/-- CredentialsRequest proto message (fields used by the service). -/
structure CredentialsRequest where
  clusterId : String
  clusterName : String
  apiToken : String
  agentVersion : String
  kubernetesVersion : String
deriving DecidableEq, Repr

/-- CredentialsResponse result oneof: Approved, Pending or Rejected. -/
inductive CredResult
  | approved (agentId : String) (agentSecret : String)
      (clientCertPem : List Nat) (clientKeyPem : List Nat) (caCertPem : List Nat)
  | pending (message : String) (pollIntervalSeconds : Nat)
  | rejected (reason : String)
deriving DecidableEq, Repr

/-- gRPC status codes returned by the modelled handlers. -/
inductive GrpcCode
  | invalidArgument
  | internal
deriving DecidableEq, Repr

/-- The fresh identity material a single approveAgent call would mint:
agent id and secret (uuid.New) and the client cert/key pair from
certManager.GenerateClientCert. none models a generation failure. -/
structure Issued where
  agentId : String
  agentSecret : String
  clientCertPEM : List Nat
  clientKeyPEM : List Nat
deriving DecidableEq, Repr

/-- AgentManagementService state: the cluster_id-keyed record map plus the
fixed CA certificate PEM that certManager.GetCACert returns. -/
structure Broker where
  agents : List (String × AgentState)
  caCertPEM : List Nat
deriving DecidableEq, Repr

/-- approveAgent: mint an identity, store the record as APPROVED, return Approved. -/
def approveAgent (s : Broker) (req : CredentialsRequest) (issue : Option Issued) :
    Except GrpcCode CredResult × Broker :=
  match issue with
  | none => (Except.error GrpcCode.internal, s)
  | some iss =>
      let st : AgentState :=
        { clusterID := req.clusterId
          clusterName := req.clusterName
          agentID := iss.agentId
          agentSecret := iss.agentSecret
          status := Status.APPROVED
          clientCertPEM := iss.clientCertPEM
          clientKeyPEM := iss.clientKeyPEM
          agentVersion := req.agentVersion
          kubernetesVersion := req.kubernetesVersion }
      (Except.ok (CredResult.approved iss.agentId iss.agentSecret iss.clientCertPEM
          iss.clientKeyPEM s.caCertPEM),
        { s with agents := Assoc.set s.agents req.clusterId st })

/-- RequestCredentials: validate, replay an existing record by status
(the Go switch has no case for UNKNOWN, which therefore falls through to
the new-agent path), else auto-approve on a token or create a PENDING record. -/
def requestCredentials (s : Broker) (req : CredentialsRequest) (issue : Option Issued) :
    Except GrpcCode CredResult × Broker :=
  if req.clusterId = "" then (Except.error GrpcCode.invalidArgument, s)
  else if req.clusterName = "" then (Except.error GrpcCode.invalidArgument, s)
  else
    let handled : Option CredResult :=
      match Assoc.find s.agents req.clusterId with
      | some agent =>
          match agent.status with
          | Status.APPROVED =>
              some (CredResult.approved agent.agentID agent.agentSecret
                agent.clientCertPEM agent.clientKeyPEM s.caCertPEM)
          | Status.PENDING =>
              some (CredResult.pending
                "Your request is pending admin approval. Please check back later." 30)
          | Status.REJECTED =>
              some (CredResult.rejected "Your request was rejected by an administrator.")
          | Status.REVOKED =>
              some (CredResult.rejected
                "Your credentials were revoked. Contact an administrator.")
          | Status.UNKNOWN => none
      | none => none
    match handled with
    | some r => (Except.ok r, s)
    | none =>
        if req.apiToken ≠ "" then approveAgent s req issue
        else
          let st : AgentState :=
            { clusterID := req.clusterId
              clusterName := req.clusterName
              agentID := ""
              agentSecret := ""
              status := Status.PENDING
              clientCertPEM := []
              clientKeyPEM := []
              agentVersion := req.agentVersion
              kubernetesVersion := req.kubernetesVersion }
          (Except.ok (CredResult.pending
              ("Agent \x27" ++ req.clusterName ++
                "\x27 is awaiting admin approval. Please check back in 30 seconds.") 30),
            { s with agents := Assoc.set s.agents req.clusterId st })

/-- ManualApprove: only a PENDING record can be approved; approval re-runs
approveAgent with the stored request data. -/
def manualApprove (s : Broker) (clusterID : String) (issue : Option Issued) :
    Except String Unit × Broker :=
  match Assoc.find s.agents clusterID with
  | none => (Except.error "agent not found", s)
  | some agent =>
      if agent.status ≠ Status.PENDING then
        (Except.error "agent is not in pending state", s)
      else
        let req : CredentialsRequest :=
          { clusterId := agent.clusterID
            clusterName := agent.clusterName
            apiToken := ""
            agentVersion := agent.agentVersion
            kubernetesVersion := agent.kubernetesVersion }
        match approveAgent s req issue with
        | (Except.error _, s2) => (Except.error "failed to approve agent", s2)
        | (Except.ok _, s2) => (Except.ok (), s2)

/-- ManualReject: any existing record is set to REJECTED; fails only if absent. -/
def manualReject (s : Broker) (clusterID : String) : Except String Unit × Broker :=
  match Assoc.find s.agents clusterID with
  | none => (Except.error "agent not found", s)
  | some agent =>
      (Except.ok (),
        { s with agents :=
            Assoc.set s.agents clusterID { agent with status := Status.REJECTED } })

/-- Revoke: any existing record is set to REVOKED; fails only if absent. -/
def revoke (s : Broker) (clusterID : String) : Except String Unit × Broker :=
  match Assoc.find s.agents clusterID with
  | none => (Except.error "agent not found", s)
  | some agent =>
      (Except.ok (),
        { s with agents :=
            Assoc.set s.agents clusterID { agent with status := Status.REVOKED } })

/-! ## Agent registry (oak-server/internal/grpc, Registry and AgentInfo) -/

/-- AgentStatus proto enum: per-session health as reported or swept. -/
inductive AgentStatus
  | UNSPECIFIED
  | HEALTHY
  | UNHEALTHY
deriving DecidableEq, Repr

/-- Heartbeat proto message: agent-reported status and active job count. -/
structure Heartbeat where
  status : AgentStatus
  activeJobs : Int
deriving DecidableEq, Repr

/-- ScaleJobCommand proto message. -/
structure ScaleJobCommand where
  jobId : String
  newParallelism : Int
deriving DecidableEq, Repr

/-- Command oneof variants. -/
inductive CommandPayload
  | scaleJob (c : ScaleJobCommand)
deriving DecidableEq, Repr

/-- Command proto message. -/
structure Command where
  commandId : String
  command : CommandPayload
deriving DecidableEq, Repr

/-- AgentConfig proto message: operating intervals pushed to agents. -/
structure AgentConfig where
  heartbeatIntervalSeconds : Int
  metricsIntervalSeconds : Int
deriving DecidableEq, Repr

/-- ConfigUpdate proto message. -/
structure ConfigUpdate where
  config : AgentConfig
deriving DecidableEq, Repr

/-- RegistrationAck proto message. -/
structure RegistrationAck where
  agentId : String
  welcomeMessage : String
  serverTime : Int
  config : AgentConfig
deriving DecidableEq, Repr

/-- ServerMessage payload oneof. -/
inductive ServerPayload
  | command (c : Command)
  | configUpdate (u : ConfigUpdate)
  | registrationAck (a : RegistrationAck)
deriving DecidableEq, Repr

/-- ServerMessage envelope: message id, timestamp and tagged payload. -/
structure ServerMessage where
  messageId : String
  timestamp : Int
  payload : ServerPayload
deriving DecidableEq, Repr

/-- The buffered SendChan contents and its capacity (make(chan, cap)). -/
structure SendQueue where
  msgs : List ServerMessage
  cap : Nat
deriving DecidableEq, Repr

/-- AgentInfo: one connected session. Go reference fields are modelled as
addresses: capabilities is a pointer (none = nil), labels a map reference
into a LabelHeap (none = nil map); sendChan none models a nil channel. -/
structure AgentInfo where
  agentID : String
  clusterID : String
  clusterName : String
  agentVersion : String
  k8sVersion : String
  capabilities : Option Nat
  labels : Option Nat
  connectedAt : Int
  lastHeartbeat : Int
  status : AgentStatus
  activeJobs : Int
  sendChan : Option SendQueue
  closed : Bool
deriving DecidableEq, Repr

/-- Registry: the session map keyed by the server-generated agent id. -/
structure Registry where
  agents : List (String × AgentInfo)
deriving DecidableEq, Repr

/-- Register: stamp connected_at/last_heartbeat with now and allocate a
capacity-100 queue when the caller supplied none. -/
def Registry.register (r : Registry) (agentID : String) (info : AgentInfo) (now : Int) :
    Registry :=
  let info1 := { info with agentID := agentID, connectedAt := now, lastHeartbeat := now }
  let info2 :=
    match info1.sendChan with
    | none => { info1 with sendChan := some { msgs := [], cap := 100 } }
    | some _ => info1
  { agents := Assoc.set r.agents agentID info2 }

/-- Unregister: if present, close the queue unless already closed, and remove
the entry. The returned list holds one element per channel actually closed. -/
def Registry.unregister (r : Registry) (agentID : String) : Registry × List String :=
  match Assoc.find r.agents agentID with
  | none => (r, [])
  | some info =>
      if info.closed then ({ agents := Assoc.del r.agents agentID }, [])
      else ({ agents := Assoc.del r.agents agentID }, [agentID])

/-- unregister iterated n times on the same id, accumulating close events. -/
def Registry.unregisterN (r : Registry) (agentID : String) : Nat → Registry × List String
  | 0 => (r, [])
  | n + 1 =>
      let p := r.unregister agentID
      let q := p.1.unregisterN agentID n
      (q.1, p.2 ++ q.2)

/-- copyAgentInfo: the copy handed to external callers. The field list mirrors
the source: SendChan and the mutex are not copied (zero values), while the
Labels map reference and the Capabilities pointer are copied as references. -/
def copyAgentInfo (info : AgentInfo) : AgentInfo :=
  { agentID := info.agentID
    clusterID := info.clusterID
    clusterName := info.clusterName
    agentVersion := info.agentVersion
    k8sVersion := info.k8sVersion
    capabilities := info.capabilities
    labels := info.labels
    connectedAt := info.connectedAt
    lastHeartbeat := info.lastHeartbeat
    status := info.status
    activeJobs := info.activeJobs
    sendChan := none
    closed := false }

/-- Get: lookup by agent id, returning a copy. -/
def Registry.get (r : Registry) (agentID : String) : Option AgentInfo :=
  (Assoc.find r.agents agentID).map copyAgentInfo

/-- List: copies of all sessions. -/
def Registry.list (r : Registry) : List AgentInfo :=
  r.agents.map (fun e => copyAgentInfo e.2)

/-- Count: number of registered sessions. -/
def Registry.count (r : Registry) : Nat :=
  r.agents.length

/-- GetByCluster: copies of all sessions whose clusterID matches. -/
def Registry.getByCluster (r : Registry) (clusterID : String) : List AgentInfo :=
  (r.agents.filter (fun e => e.2.clusterID = clusterID)).map (fun e => copyAgentInfo e.2)

/-- UpdateHeartbeat: refresh last_heartbeat and store the reported status and
active job count; no-op when the session is gone or the heartbeat is nil. -/
def Registry.updateHeartbeat (r : Registry) (agentID : String) (heartbeat : Option Heartbeat)
    (now : Int) : Registry :=
  match Assoc.find r.agents agentID with
  | none => r
  | some info =>
      let info1 := { info with lastHeartbeat := now }
      let info2 :=
        match heartbeat with
        | none => info1
        | some h => { info1 with activeJobs := h.activeJobs, status := h.status }
      { agents := Assoc.set r.agents agentID info2 }

/-- The three distinct error values of the registry send path. -/
inductive SendError
  | agentNotFound
  | agentDisconnected
  | sendChannelFull
deriving DecidableEq, Repr

/-- sendMessage: non-blocking guarded enqueue. Unknown id fails not-found; a
closed flag fails disconnected; a select with default on a full (or nil)
channel fails channel-full; otherwise the message is enqueued. -/
def Registry.sendMessage (r : Registry) (agentID : String) (msg : ServerMessage) :
    Except SendError Registry :=
  match Assoc.find r.agents agentID with
  | none => Except.error SendError.agentNotFound
  | some info =>
      if info.closed then Except.error SendError.agentDisconnected
      else
        match info.sendChan with
        | none => Except.error SendError.sendChannelFull
        | some q =>
            if q.msgs.length < q.cap then
              let info2 : AgentInfo :=
                { info with sendChan := some { msgs := q.msgs ++ [msg], cap := q.cap } }
              Except.ok { agents := Assoc.set r.agents agentID info2 }
            else Except.error SendError.sendChannelFull

/-- SendCommand: wrap the command in a ServerMessage envelope and send. -/
def Registry.sendCommand (r : Registry) (agentID : String) (cmd : Command)
    (messageId : String) (now : Int) : Except SendError Registry :=
  r.sendMessage agentID
    { messageId := messageId, timestamp := now, payload := ServerPayload.command cmd }

/-- SendConfigUpdate: wrap the config in a ServerMessage envelope and send. -/
def Registry.sendConfigUpdate (r : Registry) (agentID : String) (config : AgentConfig)
    (messageId : String) (now : Int) : Except SendError Registry :=
  r.sendMessage agentID
    { messageId := messageId, timestamp := now,
      payload := ServerPayload.configUpdate { config := config } }

/-- The per-session staleness rule of CheckHealth: a session whose last
heartbeat is older than the timeout is marked UNHEALTHY, others untouched. -/
def healthMark (timeout now : Int) (info : AgentInfo) : AgentInfo :=
  if now - info.lastHeartbeat > timeout then { info with status := AgentStatus.UNHEALTHY }
  else info

/-- CheckHealth: sweep every session with the staleness rule. -/
def Registry.checkHealth (r : Registry) (timeout : Int) (now : Int) : Registry :=
  { agents := r.agents.map (fun e => (e.1, healthMark timeout now e.2)) }

/-! ## Streaming control service (Service.AgentStream, Service.GetAgentStatus) -/

/-- GetAgentStatus connection status values. -/
inductive ConnStatus
  | CONNECTED
  | DISCONNECTED
deriving DecidableEq, Repr

/-- AgentStatusResponse proto message; absent proto fields are zero values. -/
structure AgentStatusResponse where
  status : ConnStatus
  agentId : String
  lastSeen : Option Int
  healthStatus : AgentStatus
deriving DecidableEq, Repr

/-- GetAgentStatus: the handler passes the request clusterId to Registry.get,
whose map is keyed by the server-generated agent id. -/
def getAgentStatus (r : Registry) (clusterId : String) : AgentStatusResponse :=
  match r.get clusterId with
  | none =>
      { status := ConnStatus.DISCONNECTED
        agentId := ""
        lastSeen := none
        healthStatus := AgentStatus.UNSPECIFIED }
  | some agent =>
      { status := ConnStatus.CONNECTED
        agentId := agent.agentID
        lastSeen := some agent.lastHeartbeat
        healthStatus := agent.status }

/-- Registration proto message (fields used by the handshake). -/
structure Registration where
  clusterId : String
  clusterName : String
  agentVersion : String
  kubernetesVersion : String
  capabilities : Option Nat
  labels : Option Nat
deriving DecidableEq, Repr

/-- AgentMessage payload oneof. -/
inductive AgentPayload
  | registration (r : Registration)
  | heartbeat (h : Heartbeat)
  | metrics
  | eventReport
  | commandResult
deriving DecidableEq, Repr

/-- AgentMessage envelope. -/
structure AgentMessage where
  messageId : String
  timestamp : Int
  payload : AgentPayload
deriving DecidableEq, Repr

/-- Outcome of the first stream.Recv: an error or a message. -/
inductive RecvResult
  | recvError
  | msg (m : AgentMessage)
deriving DecidableEq, Repr

/-- The AgentInfo literal AgentStream builds from the declared registration
fields; the remaining fields are Go zero values. -/
def handshakeInfo (newAgentID : String) (registration : Registration) : AgentInfo :=
  { agentID := newAgentID
    clusterID := registration.clusterId
    clusterName := registration.clusterName
    agentVersion := registration.agentVersion
    k8sVersion := registration.kubernetesVersion
    capabilities := registration.capabilities
    labels := registration.labels
    connectedAt := 0
    lastHeartbeat := 0
    status := AgentStatus.UNSPECIFIED
    activeJobs := 0
    sendChan := none
    closed := false }

/-- The registration handshake of AgentStream, up to sending the ack: peer
lookup failure is Internal; a receive error or a non-Registration first
message is InvalidArgument with the registry untouched; a Registration
allocates a session id, registers it and acknowledges with the session id,
a welcome message, the server time and the 30s/60s default intervals. -/
def agentStreamHandshake (r : Registry) (peerOk : Bool) (first : RecvResult)
    (newAgentID : String) (now : Int) (ackMessageId : String) :
    Except GrpcCode ServerMessage × Registry :=
  if !peerOk then (Except.error GrpcCode.internal, r)
  else
    match first with
    | RecvResult.recvError => (Except.error GrpcCode.invalidArgument, r)
    | RecvResult.msg m =>
        match m.payload with
        | AgentPayload.registration registration =>
            let r1 := r.register newAgentID (handshakeInfo newAgentID registration) now
            let ack : ServerMessage :=
              { messageId := ackMessageId
                timestamp := now
                payload := ServerPayload.registrationAck
                  { agentId := newAgentID
                    welcomeMessage := "Welcome " ++ registration.clusterName ++ "!"
                    serverTime := now
                    config := { heartbeatIntervalSeconds := 30
                                metricsIntervalSeconds := 60 } } }
            (Except.ok ack, r1)
        | _ => (Except.error GrpcCode.invalidArgument, r)

/-! ## Label-map heap (Go map reference semantics for AgentInfo.Labels) -/

/-- A heap of label maps; AgentInfo.labels holds an address into it. -/
abbrev LabelHeap := List (List (String × String))

/-- Dereference a label-map address. -/
def LabelHeap.read (h : LabelHeap) (addr : Nat) : List (String × String) :=
  h.getD addr []

/-- Write one key through a label-map reference: m[k] = v on the shared map. -/
def LabelHeap.write (h : LabelHeap) (addr : Nat) (k v : String) : LabelHeap :=
  h.set addr (Assoc.set (h.getD addr []) k v)

/-! ## Witness fixtures -/

/-- Fixed identity material for witness instantiations. -/
def wIssued : Issued :=
  { agentId := "agent-uuid-1"
    agentSecret := "secret-uuid-1"
    clientCertPEM := [10, 11]
    clientKeyPEM := [20, 21] }

/-- An APPROVED record for cluster c1. -/
def wAgentApproved : AgentState :=
  { clusterID := "c1"
    clusterName := "Prod"
    agentID := "agent-uuid-0"
    agentSecret := "secret-uuid-0"
    status := Status.APPROVED
    clientCertPEM := [1]
    clientKeyPEM := [2]
    agentVersion := "1.0.0"
    kubernetesVersion := "1.28.0" }

/-- A REJECTED record for cluster c2. -/
def wAgentRejected : AgentState :=
  { wAgentApproved with clusterID := "c2", status := Status.REJECTED }

/-- A REVOKED record for cluster c3. -/
def wAgentRevoked : AgentState :=
  { wAgentApproved with clusterID := "c3", status := Status.REVOKED }

/-- A broker state holding one record of each terminal-relevant status. -/
def wBroker : Broker :=
  { agents := [("c1", wAgentApproved), ("c2", wAgentRejected), ("c3", wAgentRevoked)]
    caCertPEM := [5, 6] }

/-- A well-formed credentials request for the given cluster id. -/
def wReq (cid : String) : CredentialsRequest :=
  { clusterId := cid
    clusterName := "Prod"
    apiToken := "tok"
    agentVersion := "1.0.0"
    kubernetesVersion := "1.28.0" }

/-! ## Claim theorems: credential broker -/

/-- Claim C9: RequestCredentials validation is atomic: an empty cluster_id or
an empty cluster_name yields an InvalidArgument error and the record map is
completely unchanged. -/
theorem requestCredentials_validation_atomic (s : Broker) (req : CredentialsRequest)
    (issue : Option Issued) (h : req.clusterId = "" ∨ req.clusterName = "") :
    requestCredentials s req issue = (Except.error GrpcCode.invalidArgument, s) := by
  rcases h with h | h
  · simp [requestCredentials, h]
  · by_cases h1 : req.clusterId = ""
    · simp [requestCredentials, h1]
    · simp [requestCredentials, h1, h]

/-- Witness for C9 at a concrete empty-cluster_id request. -/
theorem requestCredentials_validation_atomic_witness :
    requestCredentials wBroker
        { clusterId := ""
          clusterName := "X"
          apiToken := ""
          agentVersion := ""
          kubernetesVersion := "" } none =
      (Except.error GrpcCode.invalidArgument, wBroker) :=
  requestCredentials_validation_atomic wBroker
    { clusterId := ""
      clusterName := "X"
      apiToken := ""
      agentVersion := ""
      kubernetesVersion := "" } none (Or.inl rfl)

/-- Claim C2: RequestCredentials is idempotent for an APPROVED record: any two
calls for that cluster_id (non-empty id and name) return the stored identity
and the fixed CA certificate byte-identically, and the broker state is
unchanged. -/
theorem requestCredentials_approved_idempotent (s : Broker) (c : String)
    (req1 req2 : CredentialsRequest) (issue1 issue2 : Option Issued) (agent : AgentState)
    (h1 : req1.clusterId = c) (h2 : req2.clusterId = c) (hc : c ≠ "")
    (hn1 : req1.clusterName ≠ "") (hn2 : req2.clusterName ≠ "")
    (hfind : Assoc.find s.agents c = some agent)
    (hst : agent.status = Status.APPROVED) :
    requestCredentials s req1 issue1 =
      (Except.ok (CredResult.approved agent.agentID agent.agentSecret
        agent.clientCertPEM agent.clientKeyPEM s.caCertPEM), s) ∧
    requestCredentials s req1 issue1 = requestCredentials s req2 issue2 := by
  have key : ∀ (req : CredentialsRequest) (issue : Option Issued),
      req.clusterId = c → req.clusterName ≠ "" →
      requestCredentials s req issue =
        (Except.ok (CredResult.approved agent.agentID agent.agentSecret
          agent.clientCertPEM agent.clientKeyPEM s.caCertPEM), s) := by
    intro req issue hid hname
    simp [requestCredentials, hid, hc, hname, hfind, hst]
  exact ⟨key req1 issue1 h1 hn1, by rw [key req1 issue1 h1 hn1, key req2 issue2 h2 hn2]⟩

/-- Witness for C2: two concrete calls on the APPROVED c1 record, one with
issuance material available and one without, agree byte for byte. -/
theorem requestCredentials_approved_idempotent_witness :
    requestCredentials wBroker (wReq "c1") (some wIssued) =
      (Except.ok (CredResult.approved wAgentApproved.agentID wAgentApproved.agentSecret
        wAgentApproved.clientCertPEM wAgentApproved.clientKeyPEM wBroker.caCertPEM),
        wBroker) ∧
    requestCredentials wBroker (wReq "c1") (some wIssued) =
      requestCredentials wBroker (wReq "c1") none :=
  requestCredentials_approved_idempotent wBroker "c1" (wReq "c1") (wReq "c1")
    (some wIssued) none wAgentApproved rfl rfl (by decide) (by decide) (by decide)
    rfl rfl

/-- Claim C3: REJECTED and REVOKED are terminal under RequestCredentials: the
call (any api_token) returns Rejected with a status-specific reason and the
broker state, hence the record, is unchanged; the two reasons differ. -/
theorem requestCredentials_rejected_revoked_terminal (s : Broker)
    (req : CredentialsRequest) (issue : Option Issued) (agent : AgentState)
    (hc : req.clusterId ≠ "") (hn : req.clusterName ≠ "")
    (hfind : Assoc.find s.agents req.clusterId = some agent) :
    (agent.status = Status.REJECTED →
      requestCredentials s req issue =
        (Except.ok (CredResult.rejected
          "Your request was rejected by an administrator."), s)) ∧
    (agent.status = Status.REVOKED →
      requestCredentials s req issue =
        (Except.ok (CredResult.rejected
          "Your credentials were revoked. Contact an administrator."), s)) ∧
    ("Your request was rejected by an administrator." ≠
      "Your credentials were revoked. Contact an administrator.") := by
  refine ⟨fun hst => ?_, fun hst => ?_, by decide⟩
  · simp [requestCredentials, hc, hn, hfind, hst]
  · simp [requestCredentials, hc, hn, hfind, hst]

/-- Witness for C3 on the concrete REJECTED c2 and REVOKED c3 records. -/
theorem requestCredentials_rejected_revoked_terminal_witness :
    requestCredentials wBroker (wReq "c2") none =
      (Except.ok (CredResult.rejected
        "Your request was rejected by an administrator."), wBroker) ∧
    requestCredentials wBroker (wReq "c3") none =
      (Except.ok (CredResult.rejected
        "Your credentials were revoked. Contact an administrator."), wBroker) :=
  ⟨(requestCredentials_rejected_revoked_terminal wBroker (wReq "c2") none wAgentRejected
      (by decide) (by decide) rfl).1 rfl,
   (requestCredentials_rejected_revoked_terminal wBroker (wReq "c3") none wAgentRevoked
      (by decide) (by decide) rfl).2.1 rfl⟩

/-- Claim C10 (implicit): ManualReject does not require PENDING: any existing
record, of any status, moves to REJECTED; only an absent record fails. This
is asymmetric with ManualApprove, which fails on any non-PENDING record. -/
theorem manualReject_ignores_status (s : Broker) (c : String) :
    (∀ agent, Assoc.find s.agents c = some agent →
      manualReject s c =
        (Except.ok (), { s with agents := Assoc.set s.agents c { agent with status := Status.REJECTED } }) ∧
      Assoc.find (manualReject s c).2.agents c =
        some { agent with status := Status.REJECTED }) ∧
    (Assoc.find s.agents c = none →
      manualReject s c = (Except.error "agent not found", s)) ∧
    (∀ agent issue, Assoc.find s.agents c = some agent →
      agent.status ≠ Status.PENDING →
      manualApprove s c issue = (Except.error "agent is not in pending state", s)) := by
  refine ⟨fun agent hfind => ⟨?_, ?_⟩, fun hnone => ?_, fun agent issue hfind hst => ?_⟩
  · simp [manualReject, hfind]
  · simp [manualReject, hfind, Assoc.find_set_self]
  · simp [manualReject, hnone]
  · simp [manualApprove, hfind, hst]

/-- Witness for C10: rejecting the APPROVED c1 record succeeds and stores
REJECTED, while ManualApprove on the REVOKED c3 record fails unchanged. -/
theorem manualReject_ignores_status_witness :
    (manualReject wBroker "c1" =
      (Except.ok (), { wBroker with agents := Assoc.set wBroker.agents "c1" { wAgentApproved with status := Status.REJECTED } })) ∧
    (manualApprove wBroker "c3" none =
      (Except.error "agent is not in pending state", wBroker)) :=
  ⟨((manualReject_ignores_status wBroker "c1").1 wAgentApproved rfl).1,
   (manualReject_ignores_status wBroker "c3").2.2 wAgentRevoked none rfl (by decide)⟩

/-! ## Registry fixtures for witnesses and failing inputs -/

/-- A concrete command envelope. -/
def wMsg : ServerMessage :=
  { messageId := "m-1"
    timestamp := 0
    payload := ServerPayload.command
      { commandId := "cmd-1"
        command := CommandPayload.scaleJob { jobId := "job-1", newParallelism := 4 } } }

/-- An open queue with free capacity. -/
def wQueue : SendQueue := { msgs := [], cap := 2 }

/-- A queue at capacity. -/
def wQueueFull : SendQueue := { msgs := [wMsg, wMsg], cap := 2 }

/-- A live open session for cluster-A. -/
def wInfoOpen : AgentInfo :=
  { agentID := "sess-1"
    clusterID := "cluster-A"
    clusterName := "A"
    agentVersion := "1.0.0"
    k8sVersion := "1.28.0"
    capabilities := none
    labels := none
    connectedAt := 0
    lastHeartbeat := 0
    status := AgentStatus.HEALTHY
    activeJobs := 0
    sendChan := some wQueue
    closed := false }

/-- A session whose queue has been marked closed. -/
def wInfoClosed : AgentInfo := { wInfoOpen with agentID := "sess-2", closed := true }

/-- A session with a saturated queue. -/
def wInfoFull : AgentInfo :=
  { wInfoOpen with agentID := "sess-3", sendChan := some wQueueFull }

/-- A registry with an open, a closed and a saturated session. -/
def wRegistry : Registry :=
  { agents := [("sess-1", wInfoOpen), ("sess-2", wInfoClosed), ("sess-3", wInfoFull)] }

/-! ## Claim theorems: registry -/

theorem unregister_absent (r : Registry) (sid : String)
    (h : Assoc.find r.agents sid = none) : r.unregister sid = (r, []) := by
  simp [Registry.unregister, h]

theorem unregisterN_absent (r : Registry) (sid : String) (n : Nat)
    (h : Assoc.find r.agents sid = none) : r.unregisterN sid n = (r, []) := by
  induction n with
  | zero => rfl
  | succ n ih => simp [Registry.unregisterN, unregister_absent r sid h, ih]

theorem unregisterN_close_bound (r : Registry) (sid : String)
    (hnd : (r.agents.map Prod.fst).Nodup) (n : Nat) :
    ((r.unregisterN sid n).2).length ≤ 1 := by
  cases n with
  | zero => simp [Registry.unregisterN]
  | succ n =>
      have hdel : Assoc.find (Assoc.del r.agents sid) sid = none :=
        Assoc.find_del_self r.agents sid hnd
      cases hfind : Assoc.find r.agents sid with
      | none =>
          simp [Registry.unregisterN, Registry.unregister, hfind,
            unregisterN_absent r sid n hfind]
      | some info =>
          by_cases hcl : info.closed
          · simp [Registry.unregisterN, Registry.unregister, hfind, hcl,
              unregisterN_absent { agents := Assoc.del r.agents sid } sid n hdel]
          · simp [Registry.unregisterN, Registry.unregister, hfind, hcl,
              unregisterN_absent { agents := Assoc.del r.agents sid } sid n hdel]

/-- Claim C4: Unregister is a no-op on an absent id; any number of Unregister
calls on one id closes that queue at most once (the closed flag guards the
close); afterwards the session is absent; and a send against a session whose
queue is marked closed takes the AgentDisconnected error branch rather than
sending on a closed channel. -/
theorem unregister_idempotent_single_close (r : Registry) (sid : String) :
    (Assoc.find r.agents sid = none → r.unregister sid = (r, [])) ∧
    ((r.agents.map Prod.fst).Nodup →
      ∀ n, ((r.unregisterN sid n).2).length ≤ 1) ∧
    ((r.agents.map Prod.fst).Nodup →
      Assoc.find (r.unregister sid).1.agents sid = none) ∧
    (∀ info msg, Assoc.find r.agents sid = some info → info.closed = true →
      r.sendMessage sid msg = Except.error SendError.agentDisconnected) := by
  refine ⟨fun h => unregister_absent r sid h,
          fun hnd n => unregisterN_close_bound r sid hnd n,
          fun hnd => ?_,
          fun info msg hfind hcl => ?_⟩
  · cases hfind : Assoc.find r.agents sid with
    | none => simp [Registry.unregister, hfind]
    | some info =>
        by_cases hcl : info.closed
        · simp [Registry.unregister, hfind, hcl, Assoc.find_del_self r.agents sid hnd]
        · simp [Registry.unregister, hfind, hcl, Assoc.find_del_self r.agents sid hnd]
  · simp [Registry.sendMessage, hfind, hcl]

/-- Witness for C4: three Unregisters of sess-1 close its queue once; the
session is absent afterwards; a send to the closed sess-2 is rejected. -/
theorem unregister_idempotent_single_close_witness :
    ((wRegistry.unregisterN "sess-1" 3).2).length ≤ 1 ∧
    Assoc.find (wRegistry.unregister "sess-1").1.agents "sess-1" = none ∧
    wRegistry.sendMessage "sess-2" wMsg = Except.error SendError.agentDisconnected :=
  ⟨(unregister_idempotent_single_close wRegistry "sess-1").2.1 (by decide) 3,
   (unregister_idempotent_single_close wRegistry "sess-1").2.2.1 (by decide),
   (unregister_idempotent_single_close wRegistry "sess-2").2.2.2 wInfoClosed wMsg
     (by decide) rfl⟩

/-- Claim C5: the send path never blocks and fails with exactly one of three
distinct errors: unknown session is AgentNotFound, a closed queue is
AgentDisconnected, an open queue with no free capacity is SendChannelFull,
and otherwise the wrapped ServerMessage envelope is enqueued; SendCommand and
SendConfigUpdate are exactly sendMessage on the wrapped envelope. -/
theorem sendMessage_error_trichotomy (r : Registry) (sid : String) (msg : ServerMessage) :
    (Assoc.find r.agents sid = none →
      r.sendMessage sid msg = Except.error SendError.agentNotFound) ∧
    (∀ info, Assoc.find r.agents sid = some info → info.closed = true →
      r.sendMessage sid msg = Except.error SendError.agentDisconnected) ∧
    (∀ info q, Assoc.find r.agents sid = some info → info.closed = false →
      info.sendChan = some q → q.cap ≤ q.msgs.length →
      r.sendMessage sid msg = Except.error SendError.sendChannelFull) ∧
    (∀ info q, Assoc.find r.agents sid = some info → info.closed = false →
      info.sendChan = some q → q.msgs.length < q.cap →
      r.sendMessage sid msg = Except.ok { agents := Assoc.set r.agents sid { info with sendChan := some { msgs := q.msgs ++ [msg], cap := q.cap } } }) ∧
    (SendError.agentNotFound ≠ SendError.agentDisconnected ∧
      SendError.agentDisconnected ≠ SendError.sendChannelFull ∧
      SendError.agentNotFound ≠ SendError.sendChannelFull) ∧
    (∀ cmd mid now, r.sendCommand sid cmd mid now =
      r.sendMessage sid { messageId := mid, timestamp := now, payload := ServerPayload.command cmd }) ∧
    (∀ cfg mid now, r.sendConfigUpdate sid cfg mid now =
      r.sendMessage sid { messageId := mid, timestamp := now, payload := ServerPayload.configUpdate { config := cfg } }) := by
  refine ⟨fun h => ?_, fun info hfind hcl => ?_, fun info q hfind hcl hq hcap => ?_,
          fun info q hfind hcl hq hcap => ?_, by decide,
          fun cmd mid now => rfl, fun cfg mid now => rfl⟩
  · simp [Registry.sendMessage, h]
  · simp [Registry.sendMessage, hfind, hcl]
  · simp [Registry.sendMessage, hfind, hcl, hq, Nat.not_lt.mpr hcap]
  · simp [Registry.sendMessage, hfind, hcl, hq, hcap]

/-- Witness for C5: the four outcomes on concrete sessions of wRegistry. -/
theorem sendMessage_error_trichotomy_witness :
    wRegistry.sendMessage "ghost" wMsg = Except.error SendError.agentNotFound ∧
    wRegistry.sendMessage "sess-2" wMsg = Except.error SendError.agentDisconnected ∧
    wRegistry.sendMessage "sess-3" wMsg = Except.error SendError.sendChannelFull ∧
    wRegistry.sendMessage "sess-1" wMsg = Except.ok { agents := Assoc.set wRegistry.agents "sess-1" { wInfoOpen with sendChan := some { msgs := [wMsg], cap := 2 } } } :=
  ⟨(sendMessage_error_trichotomy wRegistry "ghost" wMsg).1 (by decide),
   (sendMessage_error_trichotomy wRegistry "sess-2" wMsg).2.1 wInfoClosed (by decide) rfl,
   (sendMessage_error_trichotomy wRegistry "sess-3" wMsg).2.2.1 wInfoFull wQueueFull
     (by decide) rfl rfl (by decide),
   (sendMessage_error_trichotomy wRegistry "sess-1" wMsg).2.2.2.1 wInfoOpen wQueue
     (by decide) rfl rfl (by decide)⟩

/-- Claim C8: CheckHealth only annotates: the session count is unchanged, a
session present before is present after with exactly the staleness rule
applied to its status (stale means now minus last_heartbeat strictly exceeds
the timeout; a fresh session is unchanged in every field), absent sessions
stay absent, and a heartbeat update stores the reported status regardless of
staleness, so staleness alone never marks UNHEALTHY outside CheckHealth. -/
theorem checkHealth_annotates_only (r : Registry) (timeout now : Int) :
    (r.checkHealth timeout now).count = r.count ∧
    (∀ sid info, Assoc.find r.agents sid = some info →
      Assoc.find (r.checkHealth timeout now).agents sid =
        some (healthMark timeout now info)) ∧
    (∀ info, now - info.lastHeartbeat > timeout →
      healthMark timeout now info = { info with status := AgentStatus.UNHEALTHY }) ∧
    (∀ info, ¬(now - info.lastHeartbeat > timeout) →
      healthMark timeout now info = info) ∧
    (∀ sid, Assoc.find r.agents sid = none →
      Assoc.find (r.checkHealth timeout now).agents sid = none) ∧
    (∀ sid info hb now2, Assoc.find r.agents sid = some info →
      Assoc.find (r.updateHeartbeat sid (some hb) now2).agents sid =
        some { info with lastHeartbeat := now2, activeJobs := hb.activeJobs, status := hb.status }) := by
  refine ⟨?_, fun sid info hfind => ?_, fun info hstale => ?_, fun info hfresh => ?_,
          fun sid hnone => ?_, fun sid info hb now2 hfind => ?_⟩
  · simp [Registry.checkHealth, Registry.count]
  · rw [Registry.checkHealth]
    simp [Assoc.find_mapVal, hfind]
  · simp [healthMark, hstale]
  · simp [healthMark, hfresh]
  · rw [Registry.checkHealth]
    simp [Assoc.find_mapVal, hnone]
  · simp [Registry.updateHeartbeat, hfind, Assoc.find_set_self]

/-- Witness for C8: with timeout 10 at time 100, the stale sess-1 is marked
UNHEALTHY, the count is unchanged, and a later heartbeat stores the reported
status. -/
theorem checkHealth_annotates_only_witness :
    (wRegistry.checkHealth 10 100).count = wRegistry.count ∧
    Assoc.find (wRegistry.checkHealth 10 100).agents "sess-1" =
      some (healthMark 10 100 wInfoOpen) ∧
    healthMark 10 100 wInfoOpen = { wInfoOpen with status := AgentStatus.UNHEALTHY } ∧
    Assoc.find (wRegistry.updateHeartbeat "sess-1" (some { status := AgentStatus.HEALTHY, activeJobs := 7 }) 100).agents "sess-1" =
      some { wInfoOpen with lastHeartbeat := 100, activeJobs := 7, status := AgentStatus.HEALTHY } :=
  ⟨(checkHealth_annotates_only wRegistry 10 100).1,
   (checkHealth_annotates_only wRegistry 10 100).2.1 "sess-1" wInfoOpen rfl,
   (checkHealth_annotates_only wRegistry 10 100).2.2.1 wInfoOpen (by decide),
   (checkHealth_annotates_only wRegistry 10 100).2.2.2.2.2 "sess-1" wInfoOpen
     { status := AgentStatus.HEALTHY, activeJobs := 7 } 100 rfl⟩

/-! ## Claim theorems: streaming control service -/

/-- Claim C7: the registration handshake is atomic on failure: a receive
error, or any first message that is not a Registration, fails with
InvalidArgument and leaves the registry untouched; a Registration registers
the session under the allocated id and acknowledges with the session id, a
welcome message, the server time and the 30s/60s default intervals. -/
theorem agentStreamHandshake_atomic (r : Registry) (newAgentID : String)
    (now : Int) (ackMessageId : String) :
    (agentStreamHandshake r true RecvResult.recvError newAgentID now ackMessageId =
      (Except.error GrpcCode.invalidArgument, r)) ∧
    (∀ m, (∀ reg, m.payload ≠ AgentPayload.registration reg) →
      agentStreamHandshake r true (RecvResult.msg m) newAgentID now ackMessageId =
        (Except.error GrpcCode.invalidArgument, r)) ∧
    (∀ m reg, m.payload = AgentPayload.registration reg →
      agentStreamHandshake r true (RecvResult.msg m) newAgentID now ackMessageId =
        (Except.ok
          { messageId := ackMessageId
            timestamp := now
            payload := ServerPayload.registrationAck
              { agentId := newAgentID
                welcomeMessage := "Welcome " ++ reg.clusterName ++ "!"
                serverTime := now
                config := { heartbeatIntervalSeconds := 30, metricsIntervalSeconds := 60 } } },
          r.register newAgentID (handshakeInfo newAgentID reg) now) ∧
      Assoc.find (r.register newAgentID (handshakeInfo newAgentID reg) now).agents newAgentID =
        some { handshakeInfo newAgentID reg with connectedAt := now, lastHeartbeat := now, sendChan := some { msgs := [], cap := 100 } }) := by
  refine ⟨rfl, fun m h => ?_, fun m reg h => ⟨?_, ?_⟩⟩
  · cases hp : m.payload with
    | registration reg => exact absurd hp (h reg)
    | heartbeat hb => simp [agentStreamHandshake, hp]
    | metrics => simp [agentStreamHandshake, hp]
    | eventReport => simp [agentStreamHandshake, hp]
    | commandResult => simp [agentStreamHandshake, hp]
  · simp [agentStreamHandshake, h]
  · simp [Registry.register, handshakeInfo, Assoc.find_set_self]

/-- A concrete registration payload for the C7 witness. -/
def wRegistration : Registration :=
  { clusterId := "cluster-B"
    clusterName := "B"
    agentVersion := "1.0.0"
    kubernetesVersion := "1.28.0"
    capabilities := none
    labels := none }

/-- Witness for C7: a concrete heartbeat-first stream is refused with the
registry untouched, and a concrete registration-first stream is registered
and acknowledged. -/
theorem agentStreamHandshake_atomic_witness :
    (agentStreamHandshake wRegistry true
      (RecvResult.msg { messageId := "m0", timestamp := 5, payload := AgentPayload.heartbeat { status := AgentStatus.HEALTHY, activeJobs := 0 } })
      "sess-9" 5 "m1" = (Except.error GrpcCode.invalidArgument, wRegistry)) ∧
    (agentStreamHandshake wRegistry true
      (RecvResult.msg { messageId := "m0", timestamp := 5, payload := AgentPayload.registration wRegistration })
      "sess-9" 5 "m1" =
      (Except.ok
        { messageId := "m1"
          timestamp := 5
          payload := ServerPayload.registrationAck
            { agentId := "sess-9"
              welcomeMessage := "Welcome " ++ wRegistration.clusterName ++ "!"
              serverTime := 5
              config := { heartbeatIntervalSeconds := 30, metricsIntervalSeconds := 60 } } },
        wRegistry.register "sess-9" (handshakeInfo "sess-9" wRegistration) 5)) :=
  ⟨(agentStreamHandshake_atomic wRegistry "sess-9" 5 "m1").2.1
      { messageId := "m0", timestamp := 5, payload := AgentPayload.heartbeat { status := AgentStatus.HEALTHY, activeJobs := 0 } }
      (fun _ h => AgentPayload.noConfusion h),
   ((agentStreamHandshake_atomic wRegistry "sess-9" 5 "m1").2.2
      { messageId := "m0", timestamp := 5, payload := AgentPayload.registration wRegistration }
      wRegistration rfl).1⟩

/-! ## Code-bug exhibits -/

/-- Claim C1 (code bug exhibit): GetAgentStatus passes the request cluster_id
to Registry.get, whose map is keyed by the server-generated session id. The
registry below holds a live session sess-1 for cluster-A, yet
GetAgentStatus(cluster-A) reports DISCONNECTED with no session data, while
only a query using the session id itself reports CONNECTED. -/
theorem getAgentStatus_lookup_misses_live_session :
    Assoc.find wRegistry.agents "sess-1" = some wInfoOpen ∧
    wInfoOpen.clusterID = "cluster-A" ∧
    getAgentStatus wRegistry "cluster-A" =
      { status := ConnStatus.DISCONNECTED
        agentId := ""
        lastSeen := none
        healthStatus := AgentStatus.UNSPECIFIED } ∧
    (getAgentStatus wRegistry "sess-1").status = ConnStatus.CONNECTED ∧
    (getAgentStatus wRegistry "sess-1").agentId = "sess-1" ∧
    (getAgentStatus wRegistry "sess-1").lastSeen = some wInfoOpen.lastHeartbeat := by
  decide

/-- A heap holding one shared label map at address 0. -/
def c6Heap : LabelHeap := [[("env", "dev")]]

/-- A session whose Labels field references heap address 0. -/
def c6Info : AgentInfo := { wInfoOpen with labels := some 0 }

/-- A registry holding only that session. -/
def c6Registry : Registry := { agents := [("sess-1", c6Info)] }

/-- Claim C6 (code bug exhibit): Get returns copyAgentInfo of the stored
record with a nil queue handle and all data fields copied, but the copy
holds the same Labels map reference (and Capabilities pointer) as the
registry-internal record: one write through the returned reference changes
the map the internal record dereferences, from env=dev to env=prod. -/
theorem copyAgentInfo_shares_labels_reference :
    c6Registry.get "sess-1" = some (copyAgentInfo c6Info) ∧
    (copyAgentInfo c6Info).sendChan = none ∧
    (copyAgentInfo c6Info).clusterID = c6Info.clusterID ∧
    (copyAgentInfo c6Info).labels = c6Info.labels ∧
    (copyAgentInfo c6Info).capabilities = c6Info.capabilities ∧
    c6Info.labels = some 0 ∧
    LabelHeap.read c6Heap 0 = [("env", "dev")] ∧
    LabelHeap.read (LabelHeap.write c6Heap 0 "env" "prod") 0 = [("env", "prod")] ∧
    LabelHeap.write c6Heap 0 "env" "prod" ≠ c6Heap := by
  decide

end Oak
